import Mathlib

/-!
Shallow embedding of the chairman speech-recording bot (`src/app.js`).

The bot ingests LINE group text messages, classifies the speaker
(chairman / delegate / messenger / other) by alias substring matching,
detects relay keywords, asks an external classifier whether the message
encodes a task, persists qualifying messages as records in a SQLite
table, and answers fixed query commands with a formatted report.

External effects (profile lookup, the OpenAI call, the DB insert) are
modelled as oracle inputs; the DB table is modelled as a list of rows.
JavaScript string primitives (`includes`, `trim`, `split`,
`toLowerCase`) are embedded as structurally recursive functions over
`List Char` so that all definitions evaluate by kernel reduction.
-/

namespace ChairmanBot

/-- Speaker categories as stored in the `speaker_type` column:
`chairman`, `delegate`, `messenger` (轉達者), or `other`. -/
inductive SpeakerType where
  | chairman
  | delegate
  | messenger
  | other
  deriving DecidableEq, Repr

/-- Record kinds as stored in the `record_type` column: `speech` or `task`. -/
inductive RecordType where
  | speech
  | task
  deriving DecidableEq, Repr

/-- Task priorities: `high`, `normal`, `low`. -/
inductive Priority where
  | high
  | normal
  | low
  deriving DecidableEq, Repr

/-! ### JavaScript string primitives -/

/-- `containsSeq sub s` : does `sub` occur as a contiguous subsequence of `s`?
Mirrors JS `String.prototype.includes` on the code-point sequence. -/
def containsSeq (sub : List Char) : List Char → Bool
  | [] => sub.isEmpty
  | c :: cs => sub.isPrefixOf (c :: cs) || containsSeq sub cs

/-- JS `s.includes(sub)`. -/
def jsIncludes (s sub : String) : Bool :=
  containsSeq sub.data s.data

/-- JS `s.toLowerCase()` (ASCII range, which covers every alias the bot uses). -/
def jsToLower (s : String) : String :=
  ⟨s.data.map Char.toLower⟩

/-- JS `s.trim()`: strip leading and trailing whitespace. -/
def jsTrim (s : String) : String :=
  ⟨((s.data.dropWhile Char.isWhitespace).reverse.dropWhile Char.isWhitespace).reverse⟩

/-- Split a character list at every occurrence of `sep`;
auxiliary for `jsSplit`. `acc` holds the current field reversed. -/
def splitAux (sep : Char) : List Char → List Char → List String
  | [], acc => [⟨acc.reverse⟩]
  | c :: cs, acc =>
    if c = sep then ⟨acc.reverse⟩ :: splitAux sep cs [] else splitAux sep cs (c :: acc)

/-- JS `s.split(sep)` for a single-character separator
(the bot only ever splits on `'|'`). -/
def jsSplit (sep : Char) (s : String) : List String :=
  splitAux sep s.data []

/-! ### Speaker Classifier (`isChairmanOrDelegate`) -/

/-- The chairman alias list from `isChairmanOrDelegate`. -/
def chairmanNames : List String :=
  ["葛望平", "葛董", "董事長", "Ge Wang Ping", "GE WANG PING"]

/-- The delegate alias list from `isChairmanOrDelegate`. -/
def delegateNames : List String :=
  ["蔡怡穎", "總經理", "林秀玲", "特助", "Cai Yi Ying", "Lin Xiu Ling"]

/-- One alias test from `isChairmanOrDelegate`:
`displayName.includes(name) || displayName.toLowerCase().includes(name.toLowerCase())`. -/
def nameMatches (displayName a : String) : Bool :=
  jsIncludes displayName a || jsIncludes (jsToLower displayName) (jsToLower a)

/-- Case-insensitive substring test: `a` occurs in `displayName` ignoring case.
This is the matching notion of spec §4.1. -/
def ciSubstr (displayName a : String) : Bool :=
  jsIncludes (jsToLower displayName) (jsToLower a)

/-- Result shape of `isChairmanOrDelegate`. -/
structure SpeakerInfo where
  isRelevant : Bool
  type : SpeakerType
  role : String
  deriving DecidableEq, Repr

/-- `isChairmanOrDelegate(displayName)` from `src/app.js`. -/
def isChairmanOrDelegate (displayName : String) : SpeakerInfo :=
  let isChairman := chairmanNames.any (nameMatches displayName)
  let isDelegate := delegateNames.any (nameMatches displayName)
  { isRelevant := isChairman || isDelegate
    type := if isChairman then .chairman else if isDelegate then .delegate else .other
    role := if isChairman then "董事長" else if isDelegate then "代理人" else "其他" }

/-! ### Relay Trigger Detector (`containsChairmanKeywords`) -/

/-- The relay keyword list from `containsChairmanKeywords`. -/
def chairmanKeywords : List String :=
  ["葛董指示", "葛董交辦", "葛董交代", "葛董要求", "葛董希望",
   "葛董務必", "葛董說", "葛董的意見", "葛董認為",
   "董事長指示", "董事長交辦", "董事長交代", "董事長要求",
   "董事長希望", "董事長務必", "董事長說", "董事長的意見",
   "完成", "執行", "繳交", "處理", "安排", "準備",
   "要求完成", "務必完成", "希望完成", "需要執行", "必須執行"]

/-- `containsChairmanKeywords(message)` from `src/app.js`. -/
def containsChairmanKeywords (message : String) : Bool :=
  chairmanKeywords.any (fun keyword => jsIncludes message keyword)

/-! ### Task Extractor (`analyzeMessage`)

The OpenAI call is an oracle: `Except Unit String` is either the text
content of the model's reply or a thrown failure. `analyzeMessage`
trims the content and parses it exactly as the source does. -/

/-- Result shape of `analyzeMessage`. -/
structure AnalysisResult where
  type : RecordType
  taskDescription : Option String
  priority : Option Priority
  deriving DecidableEq, Repr

/-- The default "ordinary speech" result
`{ type: 'speech', taskDescription: null, priority: null }`. -/
def speechResult : AnalysisResult :=
  { type := .speech, taskDescription := none, priority := none }

/-- The parsing logic of `analyzeMessage` applied to the trimmed reply
`result` (`message` is the original user message, used as the fallback
task description). -/
def parseAnalysis (result message : String) : AnalysisResult :=
  if result = "發言" then speechResult
  else
    let parts := jsSplit '|' result
    if parts.headD "" = "任務" ∧ 3 ≤ parts.length then
      let priority :=
        if jsIncludes (parts.getD 2 "") "高" then Priority.high
        else if jsIncludes (parts.getD 2 "") "低" then Priority.low
        else Priority.normal
      { type := .task
        taskDescription := some (if parts.getD 1 "" = "" then message else parts.getD 1 "")
        priority := some priority }
    else speechResult

/-- `analyzeMessage(message, speakerType, speakerName)` from `src/app.js`.
`speakerType` selects the system prompt sent to the external classifier
(chairman prompt vs delegate prompt) and so only influences the oracle's
reply; a thrown failure of the call degrades to `speechResult` via the
`catch` block. -/
def analyzeMessage (speakerType : SpeakerType) (aiReply : Except Unit String)
    (message : String) : AnalysisResult :=
  match aiReply with
  | .error _ => speechResult
  | .ok content => parseAnalysis (jsTrim content) message

/-! ### Record Store (`chairman_records` table, `recordMessage`, `getRecords`) -/

/-- One row of the `chairman_records` table. `id` and `created_at` are
assigned by the store at insert time. -/
structure Record where
  id : Nat
  group_id : String
  speaker_name : String
  speaker_type : SpeakerType
  speaker_role : String
  message_content : String
  record_type : RecordType
  task_description : Option String
  priority : Option Priority
  created_at : Nat
  deriving DecidableEq, Repr

/-- The row inserted by `recordMessage(groupId, speakerName, messageContent,
analysisResult, speakerInfo)`: the eight bound values of the `INSERT`
statement, plus the store-assigned `id` and `created_at`. -/
def recordMessage (groupId speakerName messageContent : String)
    (analysisResult : AnalysisResult) (speakerInfo : SpeakerInfo)
    (rowId createdAt : Nat) : Record :=
  { id := rowId
    group_id := groupId
    speaker_name := speakerName
    speaker_type := speakerInfo.type
    speaker_role := speakerInfo.role
    message_content := messageContent
    record_type := analysisResult.type
    task_description := analysisResult.taskDescription
    priority := analysisResult.priority
    created_at := createdAt }

/-- The `type` argument of `getRecords`: `'all'`, `'speech'` or `'task'`. -/
inductive KindFilter where
  | all
  | speech
  | task
  deriving DecidableEq, Repr

/-- The `speakerFilter` argument of `getRecords`:
`'all'`, `'chairman'`, `'delegate'` or `'messenger'`. -/
inductive SpeakerFilter where
  | all
  | chairman
  | delegate
  | messenger
  deriving DecidableEq, Repr

/-- The `record_type` clause of the query built by `getRecords`. -/
def kindFilterMatches (kf : KindFilter) (r : Record) : Bool :=
  match kf with
  | .all => true
  | .speech => r.record_type = RecordType.speech
  | .task => r.record_type = RecordType.task

/-- The `speaker_type` clause of the query built by `getRecords`. -/
def speakerFilterMatches (sf : SpeakerFilter) (r : Record) : Bool :=
  match sf with
  | .all => true
  | .chairman => r.speaker_type = SpeakerType.chairman
  | .delegate => r.speaker_type = SpeakerType.delegate
  | .messenger => r.speaker_type = SpeakerType.messenger

/-- Descending `created_at` order (`ORDER BY created_at DESC`). -/
def createdDesc (a b : Record) : Prop :=
  b.created_at ≤ a.created_at

instance : DecidableRel createdDesc := fun a b => Nat.decLe _ _

/-- `getRecords(groupId, type, speakerFilter)` over a table state `store`:
`SELECT * FROM chairman_records WHERE group_id = ? [AND record_type = ?]
[AND speaker_type = ?] ORDER BY created_at DESC`. -/
def getRecords (store : List Record) (groupId : String)
    (kf : KindFilter) (sf : SpeakerFilter) : List Record :=
  (store.filter fun r =>
      r.group_id = groupId && kindFilterMatches kf r && speakerFilterMatches sf r).insertionSort
    createdDesc

/-! ### Report Formatter (`formatRecords`)

`new Date(...).toLocaleString('zh-TW', ...)` is locale-dependent
rendering of the timestamp; it is abstracted as a `fmtDate` parameter. -/

/-- JS template interpolation of a nullable column
(`null` renders as the string `"null"`). -/
def optStr : Option String → String
  | some s => s
  | none => "null"

/-- `typeIcon` of `formatRecords`. -/
def typeIcon (r : Record) : String :=
  if r.record_type = RecordType.task then "📌" else "💬"

/-- `speakerIcon` of `formatRecords`. -/
def speakerIcon (r : Record) : String :=
  if r.speaker_type = SpeakerType.chairman then "👑"
  else if r.speaker_type = SpeakerType.delegate then "👤"
  else "📢"

/-- `priorityIcon` of `formatRecords`. -/
def priorityIcon (r : Record) : String :=
  if r.priority = some Priority.high then "🔴"
  else if r.priority = some Priority.low then "🟢"
  else if r.priority = some Priority.normal then "🟡"
  else ""

/-- The priority label used in the task entry of `formatRecords`
(`高` / `低` / `中`). -/
def priorityLabel (r : Record) : String :=
  if r.priority = some Priority.high then "高"
  else if r.priority = some Priority.low then "低"
  else "中"

/-- One numbered entry of the report (`records.forEach` body), where
`idx` is the zero-based position. -/
def formatEntry (fmtDate : Nat → String) (idx : Nat) (r : Record) : String :=
  toString (idx + 1) ++ ". " ++ typeIcon r ++ " " ++ speakerIcon r ++ " "
    ++ fmtDate r.created_at ++ "\n"
    ++ "   👤 " ++ r.speaker_role ++ "：" ++ r.speaker_name ++ "\n"
    ++ (if r.record_type = RecordType.task then
          "   🎯 任務：" ++ optStr r.task_description ++ "\n"
            ++ "   " ++ priorityIcon r ++ " 優先級：" ++ priorityLabel r ++ "\n"
            ++ "   💭 原文：" ++ r.message_content ++ "\n\n"
        else
          "   💭 發言：" ++ r.message_content ++ "\n\n")

/-- Count of speech rows in a record list. -/
def speechCount (records : List Record) : Nat :=
  (records.filter fun r => r.record_type = RecordType.speech).length

/-- Count of task rows in a record list. -/
def taskCount (records : List Record) : Nat :=
  (records.filter fun r => r.record_type = RecordType.task).length

/-- Count of chairman rows in a record list. -/
def chairmanCount (records : List Record) : Nat :=
  (records.filter fun r => r.speaker_type = SpeakerType.chairman).length

/-- Count of delegate rows in a record list. -/
def delegateCount (records : List Record) : Nat :=
  (records.filter fun r => r.speaker_type = SpeakerType.delegate).length

/-- Count of messenger rows in a record list. -/
def messengerCount (records : List Record) : Nat :=
  (records.filter fun r => r.speaker_type = SpeakerType.messenger).length

/-- The `📊 統計` summary block appended at the end of `formatRecords`. -/
def statsBlock (records : List Record) : String :=
  "📊 統計：\n💬 一般發言 " ++ toString (speechCount records)
    ++ " 筆，📌 任務交辦 " ++ toString (taskCount records)
    ++ " 筆\n👑 董事長 " ++ toString (chairmanCount records)
    ++ " 筆，👤 代理人 " ++ toString (delegateCount records) ++ " 筆"
    ++ (if 0 < messengerCount records then
          "，📢 轉達者 " ++ toString (messengerCount records) ++ " 筆"
        else "")

/-- The numbered entries of the report, concatenated in order. -/
def formatEntries (fmtDate : Nat → String) (records : List Record) : String :=
  (records.enum.map fun p => formatEntry fmtDate p.1 p.2).foldl (· ++ ·) ""

/-- `formatRecords(records)` from `src/app.js`. -/
def formatRecords (fmtDate : Nat → String) (records : List Record) : String :=
  if records.length = 0 then "📋 目前沒有相關的發言記錄"
  else
    "📋 發言記錄（共 " ++ toString records.length ++ " 筆）：\n\n"
      ++ formatEntries fmtDate records
      ++ statsBlock records

/-! ### Dispatch Controller (`handleEvent`)

An inbound LINE event is reduced to the fields the handler inspects.
`isTextMessage` stands for `event.type === 'message' &&
event.message.type === 'text'`; `sourceIsGroup` for
`event.source.type === 'group'`. The three external effects of the
non-command path are oracles: `profile` (the `client.getProfile` call,
which may throw), `aiReply` (the OpenAI chat completion, which may
throw) and `insertOk` (whether the `db.run` insert succeeds); `rowId`
and `now` are the store-assigned id and timestamp of a successful
insert. The `try`/`catch` around the body turns every thrown failure
into a silent resolution. -/

/-- The fields of an inbound event that `handleEvent` reads. -/
structure Event where
  isTextMessage : Bool
  text : String
  userId : String
  sourceIsGroup : Bool
  groupId : String
  replyToken : String
  deriving DecidableEq, Repr

/-- Oracle outcomes of the external calls made while handling one event. -/
structure Oracles where
  profile : Except Unit String
  aiReply : Except Unit String
  insertOk : Bool
  rowId : Nat
  now : Nat
  deriving Repr

/-- Observable outcome of handling one event: the reply sent into the
conversation (if any), the row appended to the store (if any), and the
`speakerType` argument of the `analyzeMessage` call (if one was made). -/
structure Outcome where
  reply : Option String
  newRecord : Option Record
  extractorCall : Option SpeakerType
  deriving DecidableEq, Repr

/-- The silent outcome: no reply, no insert, no extractor call. -/
def silentOutcome : Outcome :=
  { reply := none, newRecord := none, extractorCall := none }

/-- The non-command tail of `handleEvent` (everything after the six
query-command checks): resolve the speaker profile, classify the
speaker, check relay keywords, and conditionally analyze and record. -/
def handleOrdinary (groupId message : String) (o : Oracles) : Outcome :=
  match o.profile with
  | .error _ => silentOutcome
  | .ok speakerName =>
    let speakerInfo := isChairmanOrDelegate speakerName
    let hasChairmanKeywords := containsChairmanKeywords message
    if speakerInfo.isRelevant then
      let analysisResult := analyzeMessage speakerInfo.type o.aiReply message
      if o.insertOk then
        { reply := none
          newRecord := some (recordMessage groupId speakerName message analysisResult
            speakerInfo o.rowId o.now)
          extractorCall := some speakerInfo.type }
      else
        { reply := none, newRecord := none, extractorCall := some speakerInfo.type }
    else if hasChairmanKeywords then
      let delegateInfo : SpeakerInfo :=
        { isRelevant := true, type := .messenger, role := "轉達者" }
      let analysisResult := analyzeMessage .delegate o.aiReply message
      if o.insertOk then
        { reply := none
          newRecord := some (recordMessage groupId speakerName message analysisResult
            delegateInfo o.rowId o.now)
          extractorCall := some SpeakerType.delegate }
      else
        { reply := none, newRecord := none, extractorCall := some SpeakerType.delegate }
    else silentOutcome

/-- A query reply: format the requested view of the store and send it. -/
def replyWithRecords (store : List Record) (fmtDate : Nat → String)
    (groupId : String) (kf : KindFilter) (sf : SpeakerFilter) : Outcome :=
  { reply := some (formatRecords fmtDate (getRecords store groupId kf sf))
    newRecord := none
    extractorCall := none }

/-- `handleEvent(event)` from `src/app.js`, over a store state, a
timestamp renderer and the oracle outcomes of the external calls. -/
def handleEvent (store : List Record) (fmtDate : Nat → String)
    (ev : Event) (o : Oracles) : Outcome :=
  if ev.isTextMessage = false then silentOutcome
  else
    let message := jsTrim ev.text
    if ev.sourceIsGroup = false then silentOutcome
    else
      let groupId := ev.groupId
      if message = "記錄列表" ∨ message = "全部記錄" then
        replyWithRecords store fmtDate groupId .all .all
      else if message = "任務記錄" ∨ message = "任務列表" then
        replyWithRecords store fmtDate groupId .task .all
      else if message = "發言記錄" then
        replyWithRecords store fmtDate groupId .speech .all
      else if message = "葛董記錄" ∨ message = "董事長記錄" then
        replyWithRecords store fmtDate groupId .all .chairman
      else if message = "代理人記錄" ∨ message = "總經理記錄" ∨ message = "特助記錄" then
        replyWithRecords store fmtDate groupId .all .delegate
      else if message = "轉達記錄" ∨ message = "其他人記錄" then
        replyWithRecords store fmtDate groupId .all .messenger
      else handleOrdinary groupId message o

/-- The twelve query-command texts recognized by `handleEvent`. -/
def queryCommandTexts : List String :=
  ["記錄列表", "全部記錄", "任務記錄", "任務列表", "發言記錄",
   "葛董記錄", "董事長記錄", "代理人記錄", "總經理記錄", "特助記錄",
   "轉達記錄", "其他人記錄"]

/-- Total: any two rows compare under descending `created_at`. -/
instance : IsTotal Record createdDesc :=
  ⟨fun a b => Nat.le_total b.created_at a.created_at⟩

/-- Transitive: descending `created_at` order composes. -/
instance : IsTrans Record createdDesc :=
  ⟨fun _ _ _ hab hbc => Nat.le_trans hbc hab⟩

/-- A sample task row inserted by the chairman, used to instantiate the
store theorems at a concrete table state. -/
def sampleTaskRecord : Record :=
  { id := 1
    group_id := "G"
    speaker_name := "葛望平"
    speaker_type := .chairman
    speaker_role := "董事長"
    message_content := "葛董說明天董事會要準備Q3財報"
    record_type := .task
    task_description := some "準備Q3財報供董事會使用"
    priority := some .high
    created_at := 5 }

/-- A sample speech row relayed by a messenger, used to instantiate the
formatter theorems at a concrete record list. -/
def sampleMessengerRecord : Record :=
  { id := 2
    group_id := "G"
    speaker_name := "王小明"
    speaker_type := .messenger
    speaker_role := "轉達者"
    message_content := "葛董指示下週繳交預算"
    record_type := .speech
    task_description := none
    priority := none
    created_at := 9 }

/-! ## Theorems -/

theorem containsSeq_iff (sub s : List Char) : containsSeq sub s = true ↔ sub <:+: s := by
  induction s with
  | nil =>
    simp [containsSeq, List.isEmpty_iff, List.infix_nil]
  | cons c cs ih =>
    simp [containsSeq, List.infix_cons_iff, ih, Bool.or_eq_true]

theorem jsIncludes_iff (s sub : String) : jsIncludes s sub = true ↔ sub.data <:+: s.data :=
  containsSeq_iff sub.data s.data

theorem jsIncludes_toLower_of_raw {dn a : String} (h : jsIncludes dn a = true) :
    jsIncludes (jsToLower dn) (jsToLower a) = true := by
  rw [jsIncludes_iff] at h ⊢
  exact h.map Char.toLower

/-- The alias test of `isChairmanOrDelegate` coincides with the
case-insensitive substring test: the raw-inclusion disjunct is subsumed
by the lowered one. -/
theorem nameMatches_eq_ci (dn a : String) : nameMatches dn a = ciSubstr dn a := by
  unfold nameMatches ciSubstr
  cases hr : jsIncludes dn a with
  | false => simp
  | true => simp [jsIncludes_toLower_of_raw hr]

theorem any_nameMatches_eq_ci (dn : String) (l : List String) :
    l.any (nameMatches dn) = l.any (ciSubstr dn) := by
  induction l with
  | nil => rfl
  | cons x xs ih => simp [List.any_cons, nameMatches_eq_ci, ih]

/-- Shape of every parsed reply: ordinary speech, or a task with both
description and priority populated. -/
theorem parseAnalysis_shape (result msg : String) :
    parseAnalysis result msg = speechResult ∨
      ∃ d p, parseAnalysis result msg =
        { type := RecordType.task, taskDescription := some d, priority := some p } := by
  unfold parseAnalysis
  split
  · exact Or.inl rfl
  · dsimp only
    split
    · exact Or.inr ⟨_, _, rfl⟩
    · exact Or.inl rfl

/-- Shape of every extractor result: ordinary speech, or a task with
both description and priority populated. -/
theorem analyzeMessage_shape (st : SpeakerType) (resp : Except Unit String) (msg : String) :
    analyzeMessage st resp msg = speechResult ∨
      ∃ d p, analyzeMessage st resp msg =
        { type := RecordType.task, taskDescription := some d, priority := some p } := by
  cases resp with
  | error e => exact Or.inl rfl
  | ok content => exact parseAnalysis_shape (jsTrim content) msg

/-- Well-formed task replies parse to the task result dictated by the
source: second field as description (defaulting to the message), third
field mapped to a priority. -/
theorem parseAnalysis_task (result msg : String)
    (h1 : (jsSplit '|' result).headD "" = "任務")
    (h2 : 3 ≤ (jsSplit '|' result).length) :
    parseAnalysis result msg =
      { type := RecordType.task
        taskDescription := some (if (jsSplit '|' result).getD 1 "" = "" then msg
          else (jsSplit '|' result).getD 1 "")
        priority := some (if jsIncludes ((jsSplit '|' result).getD 2 "") "高" then Priority.high
          else if jsIncludes ((jsSplit '|' result).getD 2 "") "低" then Priority.low
          else Priority.normal) } := by
  have hne : result ≠ "發言" := by
    intro he
    rw [he] at h1
    exact absurd h1 (by decide)
  unfold parseAnalysis
  rw [if_neg hne, if_pos ⟨h1, h2⟩]

/-- C1: every record persisted by `recordMessage` from an extractor
result has `record_type = task` iff both `task_description` and
`priority` are non-null, and `record_type = speech` iff both are null. -/
theorem recordMessage_kind_iff (st : SpeakerType) (resp : Except Unit String)
    (gid sname msg : String) (sinfo : SpeakerInfo) (rowId ts : Nat) :
    ∀ r, r = recordMessage gid sname msg (analyzeMessage st resp msg) sinfo rowId ts →
      (r.record_type = RecordType.task ↔
        r.task_description ≠ none ∧ r.priority ≠ none) ∧
      (r.record_type = RecordType.speech ↔
        r.task_description = none ∧ r.priority = none) := by
  rintro r rfl
  rcases analyzeMessage_shape st resp msg with h | ⟨d, p, h⟩ <;>
    simp [recordMessage, h, speechResult]

theorem recordMessage_kind_iff_witness :
    ((recordMessage "G" "葛望平" "今天天氣不錯"
        (analyzeMessage SpeakerType.chairman (Except.ok "發言") "今天天氣不錯")
        ⟨true, .chairman, "董事長"⟩ 1 5).record_type = RecordType.task ↔
      (recordMessage "G" "葛望平" "今天天氣不錯"
        (analyzeMessage SpeakerType.chairman (Except.ok "發言") "今天天氣不錯")
        ⟨true, .chairman, "董事長"⟩ 1 5).task_description ≠ none ∧
      (recordMessage "G" "葛望平" "今天天氣不錯"
        (analyzeMessage SpeakerType.chairman (Except.ok "發言") "今天天氣不錯")
        ⟨true, .chairman, "董事長"⟩ 1 5).priority ≠ none) ∧
    ((recordMessage "G" "葛望平" "今天天氣不錯"
        (analyzeMessage SpeakerType.chairman (Except.ok "發言") "今天天氣不錯")
        ⟨true, .chairman, "董事長"⟩ 1 5).record_type = RecordType.speech ↔
      (recordMessage "G" "葛望平" "今天天氣不錯"
        (analyzeMessage SpeakerType.chairman (Except.ok "發言") "今天天氣不錯")
        ⟨true, .chairman, "董事長"⟩ 1 5).task_description = none ∧
      (recordMessage "G" "葛望平" "今天天氣不錯"
        (analyzeMessage SpeakerType.chairman (Except.ok "發言") "今天天氣不錯")
        ⟨true, .chairman, "董事長"⟩ 1 5).priority = none) :=
  recordMessage_kind_iff SpeakerType.chairman (Except.ok "發言")
    "G" "葛望平" "今天天氣不錯" ⟨true, .chairman, "董事長"⟩ 1 5 _ rfl

/-- C3: any classifier reply that is neither the statement sentinel nor
a task marker with at least three fields — including a task marker with
exactly two fields — and any thrown failure of the classifier call,
makes the extractor return the speech result; it never throws. -/
theorem analyzeMessage_degrades (st : SpeakerType) (resp : Except Unit String) (msg : String)
    (h : ∀ content, resp = Except.ok content →
      jsTrim content ≠ "發言" ∧
        ((jsSplit '|' (jsTrim content)).headD "" ≠ "任務" ∨
          (jsSplit '|' (jsTrim content)).length < 3)) :
    analyzeMessage st resp msg = speechResult := by
  cases resp with
  | error e => rfl
  | ok content =>
    obtain ⟨h1, h2⟩ := h content rfl
    show parseAnalysis (jsTrim content) msg = speechResult
    unfold parseAnalysis
    rw [if_neg h1]
    dsimp only
    rw [if_neg]
    rintro ⟨ha, hb⟩
    rcases h2 with h2 | h2
    · exact h2 ha
    · omega

theorem analyzeMessage_degrades_witness :
    analyzeMessage SpeakerType.delegate (Except.ok "任務|只有兩欄") "原始訊息" = speechResult :=
  analyzeMessage_degrades SpeakerType.delegate (Except.ok "任務|只有兩欄") "原始訊息"
    (fun _ hc => by
      injection hc with h
      subst h
      exact ⟨by decide, Or.inr (by decide)⟩)

/-- C5: an exact statement sentinel parses to the speech result; a task
marker with at least three fields parses to a task whose priority is
`high` / `low` / `normal` by token containment in the third field, and
whose description is the second field, defaulting to the raw message
when that field is empty. -/
theorem analyzeMessage_wellformed (st : SpeakerType) (content msg : String) :
    (jsTrim content = "發言" →
      analyzeMessage st (Except.ok content) msg = speechResult) ∧
    ((jsSplit '|' (jsTrim content)).headD "" = "任務" →
      3 ≤ (jsSplit '|' (jsTrim content)).length →
      analyzeMessage st (Except.ok content) msg =
        { type := RecordType.task
          taskDescription := some (if (jsSplit '|' (jsTrim content)).getD 1 "" = "" then msg
            else (jsSplit '|' (jsTrim content)).getD 1 "")
          priority := some
            (if jsIncludes ((jsSplit '|' (jsTrim content)).getD 2 "") "高" then Priority.high
             else if jsIncludes ((jsSplit '|' (jsTrim content)).getD 2 "") "低" then Priority.low
             else Priority.normal) }) := by
  constructor
  · intro h
    show parseAnalysis (jsTrim content) msg = speechResult
    rw [h]
    unfold parseAnalysis
    rw [if_pos rfl]
  · intro h1 h2
    exact parseAnalysis_task (jsTrim content) msg h1 h2

theorem analyzeMessage_wellformed_witness :
    analyzeMessage SpeakerType.chairman (Except.ok "任務|準備Q3財報供董事會使用|高")
        "葛董說明天董事會要準備Q3財報" =
      { type := RecordType.task
        taskDescription := some "準備Q3財報供董事會使用"
        priority := some Priority.high } ∧
    analyzeMessage SpeakerType.chairman (Except.ok "發言") "今天天氣不錯" = speechResult :=
  ⟨(analyzeMessage_wellformed SpeakerType.chairman "任務|準備Q3財報供董事會使用|高"
      "葛董說明天董事會要準備Q3財報").2 (by decide) (by decide),
   (analyzeMessage_wellformed SpeakerType.chairman "發言" "今天天氣不錯").1 (by decide)⟩

/-- C10: when the parsed priority field contains both the high token and
the low token, the extractor assigns `high` — the high check precedes
the low check. -/
theorem priority_high_precedence (st : SpeakerType) (content msg : String)
    (h1 : (jsSplit '|' (jsTrim content)).headD "" = "任務")
    (h2 : 3 ≤ (jsSplit '|' (jsTrim content)).length)
    (hh : jsIncludes ((jsSplit '|' (jsTrim content)).getD 2 "") "高" = true)
    (hl : jsIncludes ((jsSplit '|' (jsTrim content)).getD 2 "") "低" = true) :
    (analyzeMessage st (Except.ok content) msg).priority = some Priority.high := by
  show (parseAnalysis (jsTrim content) msg).priority = _
  rw [parseAnalysis_task (jsTrim content) msg h1 h2]
  dsimp only
  rw [if_pos hh]

theorem priority_high_precedence_witness :
    (analyzeMessage SpeakerType.chairman (Except.ok "任務|整理文件|高低皆可") "m").priority
      = some Priority.high :=
  priority_high_precedence SpeakerType.chairman "任務|整理文件|高低皆可" "m"
    (by decide) (by decide) (by decide) (by decide)

/-- C4: the Speaker Classifier returns `chairman` whenever any chairman
alias is a case-insensitive substring of the display name (even if a
delegate alias also matches), `delegate` when no chairman alias matches
but some delegate alias does, `other` otherwise; and `isRelevant` holds
exactly when the category is not `other`. -/
theorem isChairmanOrDelegate_spec (dn : String) :
    (chairmanNames.any (ciSubstr dn) = true →
      (isChairmanOrDelegate dn).type = SpeakerType.chairman) ∧
    (chairmanNames.any (ciSubstr dn) = false → delegateNames.any (ciSubstr dn) = true →
      (isChairmanOrDelegate dn).type = SpeakerType.delegate) ∧
    (chairmanNames.any (ciSubstr dn) = false → delegateNames.any (ciSubstr dn) = false →
      (isChairmanOrDelegate dn).type = SpeakerType.other) ∧
    ((isChairmanOrDelegate dn).isRelevant = true ↔
      (isChairmanOrDelegate dn).type ≠ SpeakerType.other) := by
  unfold isChairmanOrDelegate
  rw [any_nameMatches_eq_ci dn chairmanNames, any_nameMatches_eq_ci dn delegateNames]
  cases hc : chairmanNames.any (ciSubstr dn) <;>
    cases hd : delegateNames.any (ciSubstr dn) <;>
      simp

theorem isChairmanOrDelegate_spec_witness :
    ((isChairmanOrDelegate "葛董總經理").type = SpeakerType.chairman ∧
      delegateNames.any (ciSubstr "葛董總經理") = true) ∧
    (isChairmanOrDelegate "Lin xiu ling 助理").type = SpeakerType.delegate :=
  ⟨⟨(isChairmanOrDelegate_spec "葛董總經理").1 (by decide), by decide⟩,
   (isChairmanOrDelegate_spec "Lin xiu ling 助理").2.1 (by decide) (by decide)⟩

/-- C6: every row returned by `getRecords` belongs to the queried group,
matches the kind filter when it is not `all` and the speaker filter when
it is not `all`, and the result is ordered by descending `created_at`. -/
theorem getRecords_spec (store : List Record) (gid : String)
    (kf : KindFilter) (sf : SpeakerFilter) :
    (∀ r, r ∈ getRecords store gid kf sf →
      r.group_id = gid ∧
      (kf = KindFilter.task → r.record_type = RecordType.task) ∧
      (kf = KindFilter.speech → r.record_type = RecordType.speech) ∧
      (sf = SpeakerFilter.chairman → r.speaker_type = SpeakerType.chairman) ∧
      (sf = SpeakerFilter.delegate → r.speaker_type = SpeakerType.delegate) ∧
      (sf = SpeakerFilter.messenger → r.speaker_type = SpeakerType.messenger)) ∧
    (getRecords store gid kf sf).Pairwise createdDesc := by
  constructor
  · intro r hr
    rw [getRecords, List.mem_insertionSort, List.mem_filter] at hr
    obtain ⟨-, hcond⟩ := hr
    simp only [Bool.and_eq_true, decide_eq_true_eq] at hcond
    obtain ⟨⟨hg, hk⟩, hs⟩ := hcond
    refine ⟨hg, ?_, ?_, ?_, ?_, ?_⟩ <;> rintro rfl <;>
      first
        | simpa [kindFilterMatches, decide_eq_true_eq] using hk
        | simpa [speakerFilterMatches, decide_eq_true_eq] using hs
  · exact List.sorted_insertionSort createdDesc _

theorem getRecords_spec_witness :
    sampleTaskRecord.group_id = "G" ∧
    (KindFilter.task = KindFilter.task → sampleTaskRecord.record_type = RecordType.task) ∧
    (KindFilter.task = KindFilter.speech → sampleTaskRecord.record_type = RecordType.speech) ∧
    (SpeakerFilter.chairman = SpeakerFilter.chairman →
      sampleTaskRecord.speaker_type = SpeakerType.chairman) ∧
    (SpeakerFilter.chairman = SpeakerFilter.delegate →
      sampleTaskRecord.speaker_type = SpeakerType.delegate) ∧
    (SpeakerFilter.chairman = SpeakerFilter.messenger →
      sampleTaskRecord.speaker_type = SpeakerType.messenger) :=
  (getRecords_spec [sampleMessengerRecord, sampleTaskRecord] "G"
      KindFilter.task SpeakerFilter.chairman).1
    sampleTaskRecord (by decide)

/-- C9: for a non-empty record list the report ends with the summary
block: total speech count, total task count, chairman and delegate
counts always, and the messenger count segment exactly when it is
nonzero. -/
theorem formatRecords_summary (fmtDate : Nat → String) (records : List Record)
    (h : records ≠ []) :
    ∃ p, formatRecords fmtDate records =
      p ++ ("📊 統計：\n💬 一般發言 " ++ toString (speechCount records)
        ++ " 筆，📌 任務交辦 " ++ toString (taskCount records)
        ++ " 筆\n👑 董事長 " ++ toString (chairmanCount records)
        ++ " 筆，👤 代理人 " ++ toString (delegateCount records) ++ " 筆"
        ++ (if 0 < messengerCount records then
              "，📢 轉達者 " ++ toString (messengerCount records) ++ " 筆"
            else "")) := by
  refine ⟨"📋 發言記錄（共 " ++ toString records.length ++ " 筆）：\n\n"
    ++ formatEntries fmtDate records, ?_⟩
  rw [formatRecords, if_neg (by simpa [List.length_eq_zero] using h), statsBlock]

theorem formatRecords_summary_witness :
    ∃ p, formatRecords (fun _ => "") [sampleTaskRecord, sampleMessengerRecord] =
      p ++ ("📊 統計：\n💬 一般發言 "
        ++ toString (speechCount [sampleTaskRecord, sampleMessengerRecord])
        ++ " 筆，📌 任務交辦 " ++ toString (taskCount [sampleTaskRecord, sampleMessengerRecord])
        ++ " 筆\n👑 董事長 " ++ toString (chairmanCount [sampleTaskRecord, sampleMessengerRecord])
        ++ " 筆，👤 代理人 " ++ toString (delegateCount [sampleTaskRecord, sampleMessengerRecord])
        ++ " 筆"
        ++ (if 0 < messengerCount [sampleTaskRecord, sampleMessengerRecord] then
              "，📢 轉達者 " ++ toString (messengerCount [sampleTaskRecord, sampleMessengerRecord])
                ++ " 筆"
            else "")) :=
  formatRecords_summary (fun _ => "") [sampleTaskRecord, sampleMessengerRecord] (by decide)

/-- A non-command group text message falls through all six query-command
branches into the ordinary-message tail. -/
theorem handleEvent_noncommand (store : List Record) (fmtDate : Nat → String)
    (ev : Event) (o : Oracles)
    (htext : ev.isTextMessage = true) (hgroup : ev.sourceIsGroup = true)
    (hcmd : jsTrim ev.text ∉ queryCommandTexts) :
    handleEvent store fmtDate ev o = handleOrdinary ev.groupId (jsTrim ev.text) o := by
  simp only [queryCommandTexts, List.mem_cons, List.not_mem_nil, or_false, not_or] at hcmd
  obtain ⟨h1, h2, h3, h4, h5, h6, h7, h8, h9, h10, h11, h12⟩ := hcmd
  simp [handleEvent, htext, hgroup, h1, h2, h3, h4, h5, h6, h7, h8, h9, h10, h11, h12]

/-- The ordinary-message tail never sends a reply, whatever the oracle
outcomes (profile failure, classifier failure, insert failure included). -/
theorem handleOrdinary_reply_none (gid msg : String) (o : Oracles) :
    (handleOrdinary gid msg o).reply = none := by
  rw [handleOrdinary]
  cases hp : o.profile with
  | error e => rfl
  | ok speakerName =>
    cases hrel : (isChairmanOrDelegate speakerName).isRelevant <;>
      cases hkw : containsChairmanKeywords msg <;>
        cases hins : o.insertOk <;>
          simp [hrel, hkw, hins, silentOutcome]

/-- C7: for every non-command group text message, the handler resolves
with no reply for every oracle outcome — in particular when the profile
lookup, the classifier call or the insert fails, the failure is absorbed
into a silent no-op. -/
theorem handleEvent_silent_noncommand (store : List Record) (fmtDate : Nat → String)
    (ev : Event) (o : Oracles)
    (htext : ev.isTextMessage = true) (hgroup : ev.sourceIsGroup = true)
    (hcmd : jsTrim ev.text ∉ queryCommandTexts) :
    (handleEvent store fmtDate ev o).reply = none := by
  rw [handleEvent_noncommand store fmtDate ev o htext hgroup hcmd]
  exact handleOrdinary_reply_none ev.groupId (jsTrim ev.text) o

theorem handleEvent_silent_noncommand_witness :
    (handleEvent [] (fun _ => "")
        ⟨true, "今天天氣不錯", "U1", true, "G1", "R1"⟩
        ⟨Except.error (), Except.error (), false, 0, 0⟩).reply = none :=
  handleEvent_silent_noncommand [] (fun _ => "")
    ⟨true, "今天天氣不錯", "U1", true, "G1", "R1"⟩
    ⟨Except.error (), Except.error (), false, 0, 0⟩
    rfl rfl (by decide)

/-- C8: a group message whose trimmed text is one of the task-list
commands is answered with exactly the formatted result of
`getRecords(groupId, task, all)`, and the command branch appends
nothing to the store and never calls the extractor. -/
theorem handleEvent_taskListCommand (store : List Record) (fmtDate : Nat → String)
    (ev : Event) (o : Oracles)
    (htext : ev.isTextMessage = true) (hgroup : ev.sourceIsGroup = true)
    (hmsg : jsTrim ev.text = "任務記錄" ∨ jsTrim ev.text = "任務列表") :
    handleEvent store fmtDate ev o =
      { reply := some (formatRecords fmtDate
          (getRecords store ev.groupId KindFilter.task SpeakerFilter.all))
        newRecord := none
        extractorCall := none } := by
  rcases hmsg with h | h <;>
    simp [handleEvent, htext, hgroup, h, replyWithRecords]

theorem handleEvent_taskListCommand_witness :
    handleEvent [sampleTaskRecord] (fun _ => "")
        ⟨true, "任務列表", "U1", true, "G", "R1"⟩
        ⟨Except.error (), Except.error (), false, 0, 0⟩ =
      { reply := some (formatRecords (fun _ => "")
          (getRecords [sampleTaskRecord] "G" KindFilter.task SpeakerFilter.all))
        newRecord := none
        extractorCall := none } :=
  handleEvent_taskListCommand [sampleTaskRecord] (fun _ => "")
    ⟨true, "任務列表", "U1", true, "G", "R1"⟩
    ⟨Except.error (), Except.error (), false, 0, 0⟩
    rfl rfl (Or.inr (by decide))

/-- C2: for a non-command group text message whose resolved speaker is
neither chairman nor delegate (and a succeeding insert), a record is
appended iff the message contains a relay keyword; an appended record
carries the messenger category and role, the extractor is invoked with
the delegate prompt, and with no keyword the outcome is fully silent. -/
theorem handleEvent_relay (store : List Record) (fmtDate : Nat → String)
    (ev : Event) (o : Oracles) (speakerName : String)
    (htext : ev.isTextMessage = true) (hgroup : ev.sourceIsGroup = true)
    (hcmd : jsTrim ev.text ∉ queryCommandTexts)
    (hprof : o.profile = Except.ok speakerName)
    (hirrel : (isChairmanOrDelegate speakerName).isRelevant = false)
    (hins : o.insertOk = true) :
    ((handleEvent store fmtDate ev o).newRecord.isSome = true ↔
      containsChairmanKeywords (jsTrim ev.text) = true) ∧
    (∀ r, (handleEvent store fmtDate ev o).newRecord = some r →
      r.speaker_type = SpeakerType.messenger ∧ r.speaker_role = "轉達者") ∧
    (containsChairmanKeywords (jsTrim ev.text) = true →
      (handleEvent store fmtDate ev o).extractorCall = some SpeakerType.delegate) ∧
    (containsChairmanKeywords (jsTrim ev.text) = false →
      handleEvent store fmtDate ev o = silentOutcome) := by
  rw [handleEvent_noncommand store fmtDate ev o htext hgroup hcmd]
  cases hkw : containsChairmanKeywords (jsTrim ev.text) with
  | false => simp [handleOrdinary, hprof, hirrel, hkw, silentOutcome]
  | true =>
    have hout : handleOrdinary ev.groupId (jsTrim ev.text) o =
        { reply := none
          newRecord := some (recordMessage ev.groupId speakerName (jsTrim ev.text)
            (analyzeMessage .delegate o.aiReply (jsTrim ev.text))
            ⟨true, .messenger, "轉達者"⟩ o.rowId o.now)
          extractorCall := some SpeakerType.delegate } := by
      simp [handleOrdinary, hprof, hirrel, hkw, hins]
    rw [hout]
    refine ⟨by simp, ?_, fun _ => rfl, by simp⟩
    rintro r hr
    simp only [Option.some.injEq] at hr
    subst hr
    exact ⟨rfl, rfl⟩

theorem handleEvent_relay_witness :
    ((handleEvent [] (fun _ => "")
        ⟨true, "葛董指示明天繳交報告", "U1", true, "G1", "R1"⟩
        ⟨Except.ok "王小明", Except.ok "發言", true, 7, 9⟩).newRecord.isSome = true ↔
      containsChairmanKeywords (jsTrim "葛董指示明天繳交報告") = true) ∧
    (∀ r, (handleEvent [] (fun _ => "")
        ⟨true, "葛董指示明天繳交報告", "U1", true, "G1", "R1"⟩
        ⟨Except.ok "王小明", Except.ok "發言", true, 7, 9⟩).newRecord = some r →
      r.speaker_type = SpeakerType.messenger ∧ r.speaker_role = "轉達者") ∧
    (containsChairmanKeywords (jsTrim "葛董指示明天繳交報告") = true →
      (handleEvent [] (fun _ => "")
        ⟨true, "葛董指示明天繳交報告", "U1", true, "G1", "R1"⟩
        ⟨Except.ok "王小明", Except.ok "發言", true, 7, 9⟩).extractorCall
          = some SpeakerType.delegate) ∧
    (containsChairmanKeywords (jsTrim "葛董指示明天繳交報告") = false →
      handleEvent [] (fun _ => "")
        ⟨true, "葛董指示明天繳交報告", "U1", true, "G1", "R1"⟩
        ⟨Except.ok "王小明", Except.ok "發言", true, 7, 9⟩ = silentOutcome) :=
  handleEvent_relay [] (fun _ => "")
    ⟨true, "葛董指示明天繳交報告", "U1", true, "G1", "R1"⟩
    ⟨Except.ok "王小明", Except.ok "發言", true, 7, 9⟩ "王小明"
    rfl rfl (by decide) rfl (by decide) rfl
